import Mathlib

/-!
Verification development for the Crisis Circle help-request service.

The definitions below are a shallow embedding of the help-request
lifecycle, authorization middleware, category inference and the
nearby-listing pipeline of the repository:

* the HelpRequest mongoose model (schema fields, instance methods
  approve / complete / addNote / markInterested / flag),
* the validateHelpRequestAccess middleware (auth.js),
* the HelpController route handlers (createHelpRequest,
  updateHelpRequest, approveHelpRequest, completeHelpRequest,
  deleteHelpRequest, addNote, markInterest, rateHelpRequest,
  flagHelpRequest, getHelpRequests),
* the Joi validation layer (validators.js) which whitelists the fields
  a request body may carry (stripUnknown is on, so an update body can
  never smuggle status / donorId / timestamps),
* the pagination helper getPaginationInfo (helpers.js).

Dates are modelled as natural numbers (milliseconds since epoch),
Mongo ObjectIds as naturals, and floating point coordinates/distances
as rationals.  The Haversine distance function and the Mongo
$centerSphere operator are transcendental / external-database
computations; the listing pipeline is therefore parameterised over
them (`dist`, `geoW`), exactly at the boundary where the controller
calls locationService.calculateDistance and hands a query object to
MongoDB.  Concrete scenario theorems instantiate these parameters with
the values the real functions take on the scenario inputs.
-/

/-- Request lifecycle status, the HELP_REQUEST_STATUS string enum
(open / approved / completed).  `opened` stands for the source string
"open", which is a reserved word in Lean. -/
inductive Status
  | opened
  | approved
  | completed
deriving DecidableEq, Repr

/-- Priority / urgency string enum (low / medium / high / critical). -/
inductive Priority
  | low
  | medium
  | high
  | critical
deriving DecidableEq, Repr

/-- Numeric rank used to model the descending priority sort of the
store (sort clause priority: -1). -/
def Priority.rank : Priority → Nat
  | .low => 0
  | .medium => 1
  | .high => 2
  | .critical => 3

/-- Geographic coordinates, schema pickupLocation.coordinates. -/
structure Coordinates where
  latitude : ℚ
  longitude : ℚ
deriving DecidableEq, Repr

/-- Schema pickupLocation subdocument. -/
structure PickupLocation where
  address : String
  coordinates : Coordinates
  zipCode : String
deriving DecidableEq, Repr

/-- Schema availabilityWindow (timeSlots carry no lifecycle or listing
semantics and are omitted). -/
structure TimeWindow where
  startDate : Nat
  endDate : Nat
deriving DecidableEq, Repr

/-- One entry of the items array of a request. -/
structure RequestItem where
  itemId : Nat
  quantity : Nat
  unit : String
  urgency : Priority
deriving DecidableEq, Repr

/-- One entry of the notes array. -/
structure NoteEntry where
  author : Nat
  content : String
  createdAt : Nat
deriving DecidableEq, Repr

/-- One rating slot (stars, comment, createdAt). -/
structure RatingEntry where
  stars : Nat
  comment : String
  createdAt : Nat
deriving DecidableEq, Repr

/-- Schema rating subdocument with the two party slots. -/
structure RatingPair where
  recipientRating : Option RatingEntry
  donorRating : Option RatingEntry
deriving DecidableEq, Repr

/-- One entry of metadata.interested. -/
structure InterestEntry where
  userId : Nat
  interestedAt : Nat
deriving DecidableEq, Repr

/-- Schema metadata.flagged subdocument. -/
structure FlagInfo where
  isFlagged : Bool
  reason : Option String
  flaggedBy : Option Nat
  flaggedAt : Option Nat
deriving DecidableEq, Repr

/-- Schema metadata subdocument. -/
structure RequestMeta where
  views : Nat
  interested : List InterestEntry
  flagged : FlagInfo
deriving DecidableEq, Repr

/-- The HelpRequest document (models/HelpRequest.js schema). -/
structure HelpRequest where
  id : Nat
  recipientId : Nat
  title : String
  description : String
  items : List RequestItem
  status : Status
  donorId : Option Nat
  priority : Priority
  category : String
  pickupLocation : PickupLocation
  availabilityWindow : TimeWindow
  approvedAt : Option Nat
  completedAt : Option Nat
  notes : List NoteEntry
  rating : RatingPair
  metadata : RequestMeta
  createdAt : Nat
deriving DecidableEq, Repr

/-- A catalog help item (models/HelpItem.js): identity, category and
the isActive flag, which is all the help-request code consults. -/
structure HelpItem where
  id : Nat
  category : String
  isActive : Bool
deriving DecidableEq, Repr

/-- The typed error outcomes of the HTTP handlers, following the
taxonomy of the spec: 404 lookups are notFound, 403 responses are
forbidden, the 400 returned when a state guard blocks a transition is
conflict (approve on a non-open request, delete of an approved
request) or invalidState (complete on a non-approved request), and 400
input rejections are validationFailed. -/
inductive ApiError
  | notFound
  | forbidden
  | conflict
  | validationFailed
  | invalidState
deriving DecidableEq, Repr

deriving instance DecidableEq for Except

/-- Boolean success test for a handler outcome. -/
def isSuccess : Except ApiError HelpRequest → Bool
  | .ok _ => true
  | .error _ => false

/-- HelpItem.find with an id $in filter and isActive true, returning
matches in catalog iteration order (the store scans the collection). -/
def findActiveItems (catalog : List HelpItem) (ids : List Nat) : List HelpItem :=
  catalog.filter (fun it => it.isActive && ids.contains it.id)

/-- One step of the categoryCounts reduce of the controller: the JS
object acc gets acc[cat] = (acc[cat] or 0) + 1, keeping first-insertion
key order. -/
def bumpCategory : List (String × Nat) → String → List (String × Nat)
  | [], c => [(c, 1)]
  | (k, n) :: rest, c =>
      if k = c then (k, n + 1) :: rest else (k, n) :: bumpCategory rest c

/-- The categoryCounts object built by the controller reduce, as an
association list in key-insertion order. -/
def categoryCounts (cats : List String) : List (String × Nat) :=
  cats.foldl bumpCategory []

/-- Lookup of a key in the counts object (0 when absent, as the JS
`or 0` default reads it). -/
def countOf : List (String × Nat) → String → Nat
  | [], _ => 0
  | (k, n) :: rest, c => if k = c then n else countOf rest c

/-- The Object.keys(...).reduce((a, b) => counts[a] > counts[b] ? a : b)
fold of the controller, walking the remaining keys left to right. -/
def pickMax (cnt : String → Nat) : String → List String → String
  | a, [] => a
  | a, b :: bs => pickMax cnt (if cnt b < cnt a then a else b) bs

/-- Derived category of a request: the key of categoryCounts with the
highest count, as computed by the controller's reduce over
Object.keys.  none models the JS exception thrown by reduce on an
empty key list (unreachable: Joi requires at least one item). -/
def mostCommonCategory (cats : List String) : Option String :=
  match categoryCounts cats with
  | [] => none
  | (k, _) :: rest =>
      some (pickMax (countOf (categoryCounts cats)) k (rest.map Prod.fst))

/-- Route POST /requests/:id/approve: validateHelpRequestAccess
"approve" (owner gets 403 CANNOT_APPROVE_OWN before any status check;
then a non-open status gets 400 ALREADY_APPROVED) followed by the model
method approve, which sets status, donorId and approvedAt := now. -/
def approveHelpRequest (r : HelpRequest) (actorId : Nat) (now : Nat) :
    Except ApiError HelpRequest :=
  if r.recipientId = actorId then .error .forbidden
  else if r.status ≠ .opened then .error .conflict
  else .ok { r with status := .approved, donorId := some actorId,
                    approvedAt := some now }

/-- Route POST /requests/:id/complete: validateHelpRequestAccess
"complete" (neither donor nor owner gets 403), then the controller
guard (400 unless status is approved), then the model method complete,
which sets status := completed and completedAt := now. -/
def completeHelpRequest (r : HelpRequest) (actorId : Nat) (now : Nat) :
    Except ApiError HelpRequest :=
  let isOwner := r.recipientId = actorId
  let isDonor := r.donorId = some actorId
  if ¬ isDonor ∧ ¬ isOwner then .error .forbidden
  else if r.status ≠ .approved then .error .invalidState
  else .ok { r with status := .completed, completedAt := some now }

/-- The fields an update body may carry after Joi validation
(helpRequestValidation.update with stripUnknown: status, donorId,
category, timestamps and metadata can never appear). -/
structure UpdatePatch where
  title : Option String
  description : Option String
  items : Option (List RequestItem)
  priority : Option Priority
  availabilityWindow : Option TimeWindow
deriving DecidableEq, Repr

/-- A patch with no fields set. -/
def emptyPatch : UpdatePatch :=
  { title := none, description := none, items := none, priority := none,
    availabilityWindow := none }

/-- Object.assign(helpRequest, updates) restricted to the whitelisted
fields, with the category the controller recomputes when items are
replaced. -/
def applyPatch (r : HelpRequest) (p : UpdatePatch) (newCategory : Option String) :
    HelpRequest :=
  { r with
    title := p.title.getD r.title,
    description := p.description.getD r.description,
    items := p.items.getD r.items,
    priority := p.priority.getD r.priority,
    availabilityWindow := p.availabilityWindow.getD r.availabilityWindow,
    category := newCategory.getD r.category }

/-- The pre-save hook of the model: saving fails when the availability
window is not strictly increasing. -/
def saveChecked (r : HelpRequest) : Except ApiError HelpRequest :=
  if r.availabilityWindow.endDate ≤ r.availabilityWindow.startDate then
    .error .validationFailed
  else .ok r

/-- Route PUT /requests/:id: validateHelpRequestAccess "edit" (the
middleware checks ownership only — it never inspects status or
expiry), then the controller: when items are supplied they are
validated against the catalog and category is recomputed, then
Object.assign plus save (pre-save window check). -/
def updateHelpRequest (catalog : List HelpItem) (r : HelpRequest)
    (actorId : Nat) (p : UpdatePatch) : Except ApiError HelpRequest :=
  if r.recipientId ≠ actorId then .error .forbidden
  else
    match p.items with
    | some its =>
        let ids := its.map (fun it => it.itemId)
        let valid := findActiveItems catalog ids
        if valid.length ≠ ids.length then .error .validationFailed
        else saveChecked (applyPatch r p
          (mostCommonCategory (valid.map (fun it => it.category))))
    | none => saveChecked (applyPatch r p none)

/-- Route DELETE /requests/:id: validateHelpRequestAccess "edit"
(ownership only), then the controller rejects approved requests (400)
and hard-deletes any other status, completed included. -/
def deleteHelpRequest (r : HelpRequest) (actorId : Nat) :
    Except ApiError Unit :=
  if r.recipientId ≠ actorId then .error .forbidden
  else if r.status = .approved then .error .conflict
  else .ok ()

/-- Route POST /requests/:id/notes: only recipient or donor may add a
note; the model method appends with a server timestamp. -/
def addNoteToRequest (r : HelpRequest) (actorId : Nat) (content : String)
    (now : Nat) : Except ApiError HelpRequest :=
  let isRecipient := r.recipientId = actorId
  let isDonor := r.donorId = some actorId
  if ¬ isRecipient ∧ ¬ isDonor then .error .forbidden
  else .ok { r with notes := r.notes ++ [⟨actorId, content, now⟩] }

/-- Route POST /requests/:id/interest: the controller rejects the
owner (400, modelled as forbidden per the spec taxonomy), then the
model method markInterested appends unless the user is already in the
interested list (idempotent no-op).  No status or expiry is checked. -/
def markInterestInRequest (r : HelpRequest) (actorId : Nat) (now : Nat) :
    Except ApiError HelpRequest :=
  if r.recipientId = actorId then .error .forbidden
  else if r.metadata.interested.any (fun e => e.userId = actorId) then .ok r
  else .ok { r with metadata :=
    { r.metadata with interested := r.metadata.interested ++ [⟨actorId, now⟩] } }

/-- Route POST /requests/:id/rate: 400 unless completed, 403 unless
recipient or donor; then the controller writes the CALLER's own slot:
rating.recipientRating when the caller is the recipient, else
rating.donorRating. -/
def rateHelpRequest (r : HelpRequest) (actorId : Nat) (stars : Nat)
    (comment : String) (now : Nat) : Except ApiError HelpRequest :=
  if r.status ≠ .completed then .error .validationFailed
  else
    let isRecipient := r.recipientId = actorId
    let isDonor := r.donorId = some actorId
    if ¬ isRecipient ∧ ¬ isDonor then .error .forbidden
    else if isRecipient then
      .ok { r with rating := { r.rating with recipientRating := some ⟨stars, comment, now⟩ } }
    else
      .ok { r with rating := { r.rating with donorRating := some ⟨stars, comment, now⟩ } }

/-- Route POST /requests/:id/flag: any authenticated actor; the model
method overwrites the flagged subdocument with the newest data. -/
def flagHelpRequest (r : HelpRequest) (actorId : Nat) (reason : String)
    (now : Nat) : Except ApiError HelpRequest :=
  .ok { r with metadata := { r.metadata with
    flagged := ⟨true, some reason, some actorId, some now⟩ } }

/-- The slice of the creator's user profile the controller reads
(address, zipCode, coordinates). -/
structure UserProfile where
  id : Nat
  address : String
  zipCode : String
  coordinates : Coordinates
deriving DecidableEq, Repr

/-- A creation body after Joi validation (helpRequestValidation.create:
title, description, at least one item, priority, category,
availabilityWindow; the submitted category is overwritten by the
inferred one). -/
structure CreateBody where
  title : String
  description : String
  items : List RequestItem
  priority : Priority
  category : String
  availabilityWindow : TimeWindow
deriving DecidableEq, Repr

/-- Route POST /requests: profile lookup (404 when absent), item
validation against the catalog, category inference, then the new
document: status open, no donor, no approval or completion timestamps,
pickup location copied from the profile. -/
def createHelpRequest (catalog : List HelpItem) (profile : Option UserProfile)
    (recipientId : Nat) (body : CreateBody) (newId : Nat) (now : Nat) :
    Except ApiError HelpRequest :=
  match profile with
  | none => .error .notFound
  | some u =>
      let ids := body.items.map (fun it => it.itemId)
      let valid := findActiveItems catalog ids
      if valid.length ≠ ids.length then .error .validationFailed
      else
        match mostCommonCategory (valid.map (fun it => it.category)) with
        | none => .error .validationFailed
        | some cat =>
            if body.availabilityWindow.endDate ≤ body.availabilityWindow.startDate then
              .error .validationFailed
            else .ok {
              id := newId, recipientId := recipientId,
              title := body.title, description := body.description,
              items := body.items, status := .opened, donorId := none,
              priority := body.priority, category := cat,
              pickupLocation := ⟨u.address, u.coordinates, u.zipCode⟩,
              availabilityWindow := body.availabilityWindow,
              approvedAt := none, completedAt := none, notes := [],
              rating := ⟨none, none⟩,
              metadata := ⟨0, [], ⟨false, none, none, none⟩⟩,
              createdAt := now }

/-- C2: approve(actorId) returns Forbidden whenever the actor is the
recipient, regardless of status; for any other actor it returns
Conflict whenever the status is not open; and on a non-owner actor
with an open request it succeeds, setting status to approved, donorId
to the actor and approvedAt to the current time. -/
theorem approve_access_and_effect (r : HelpRequest) (a now : Nat) :
    (a = r.recipientId → approveHelpRequest r a now = .error .forbidden) ∧
    (a ≠ r.recipientId → r.status ≠ .opened →
      approveHelpRequest r a now = .error .conflict) ∧
    (a ≠ r.recipientId → r.status = .opened →
      approveHelpRequest r a now =
        .ok { r with status := .approved, donorId := some a,
                     approvedAt := some now }) := by
  refine ⟨fun h1 => ?_, fun h1 h2 => ?_, fun h1 h2 => ?_⟩
  · simp [approveHelpRequest, h1]
  · simp [approveHelpRequest, Ne.symm h1, h2]
  · simp [approveHelpRequest, Ne.symm h1, h2]

/-- Concrete open request used by several scenario evaluations:
recipient 1 at (40.05, -74.0), one item of quantity 3, window 0..1000. -/
def scenarioRequest : HelpRequest :=
  { id := 1, recipientId := 1,
    title := "Need groceries this week",
    description := "Running low on food supplies for the family.",
    items := [⟨1, 3, "units", .medium⟩],
    status := .opened, donorId := none,
    priority := .medium, category := "food",
    pickupLocation := ⟨"12 Oak Street", ⟨mkRat 4005 100, -74⟩, "10001"⟩,
    availabilityWindow := ⟨0, 1000⟩,
    approvedAt := none, completedAt := none, notes := [],
    rating := ⟨none, none⟩,
    metadata := ⟨0, [], ⟨false, none, none, none⟩⟩,
    createdAt := 10 }

/-- Witness for approve_access_and_effect: on the concrete open
request, the owner is refused and donor 2 succeeds. -/
theorem approve_access_and_effect_witness :
    approveHelpRequest scenarioRequest 1 50 = .error .forbidden ∧
    approveHelpRequest scenarioRequest 2 50 =
      .ok { scenarioRequest with status := .approved, donorId := some 2,
                                 approvedAt := some 50 } :=
  ⟨(approve_access_and_effect scenarioRequest 1 50).1 rfl,
   (approve_access_and_effect scenarioRequest 2 50).2.2 (by decide) rfl⟩

/-- Insertion of an element in front of the first entry it compares
at-or-before, modelling stable sorted retrieval (the store's sort
clause) and the stable Array.prototype.sort of the controller. -/
def insertLe {α : Type} (le : α → α → Bool) (a : α) : List α → List α
  | [] => [a]
  | b :: bs => if le a b then a :: b :: bs else b :: insertLe le a bs

/-- Stable insertion sort over a boolean comparator. -/
def sortLe {α : Type} (le : α → α → Bool) : List α → List α
  | [] => []
  | a :: as => insertLe le a (sortLe le as)

/-- Membership through insertLe. -/
theorem mem_insertLe {α : Type} (le : α → α → Bool) (a x : α) :
    ∀ l : List α, x ∈ insertLe le a l ↔ x = a ∨ x ∈ l := by
  intro l
  induction l with
  | nil => simp [insertLe]
  | cons b bs ih =>
      by_cases h : le a b = true
      · simp [insertLe, h]
      · simp only [insertLe, if_neg h, List.mem_cons, ih]
        tauto

/-- Membership is preserved by sortLe. -/
theorem mem_sortLe {α : Type} (le : α → α → Bool) (x : α) :
    ∀ l : List α, x ∈ sortLe le l ↔ x ∈ l := by
  intro l
  induction l with
  | nil => simp [sortLe]
  | cons a as ih => simp [sortLe, mem_insertLe, ih]

/-- Character-list version of startsWith used by the substring test. -/
def charsStartWith : List Char → List Char → Bool
  | [], _ => true
  | _ :: _, [] => false
  | a :: as, b :: bs => a = b && charsStartWith as bs

/-- Character-list substring test. -/
def charsContain (needle : List Char) : List Char → Bool
  | [] => needle.isEmpty
  | b :: bs => charsStartWith needle (b :: bs) || charsContain needle bs

/-- Case-insensitive substring match, modelling the $regex query with
the i option the controller builds for search and zipCode filters. -/
def strContains (hay needle : String) : Bool :=
  charsContain needle.toLower.data hay.toLower.data

/-- The query parameters of GET /requests after Joi validation
(queryValidation.helpRequestFilters): page and limit are positive
integers, radius is a number in 1..100 defaulting to 10, latitude and
longitude are numbers when present. -/
structure ListQuery where
  page : Nat
  limit : Nat
  status : Option Status
  category : Option String
  priority : Option Priority
  zipCode : Option String
  radius : ℚ
  latitude : Option ℚ
  longitude : Option ℚ
  search : Option String
deriving DecidableEq, Repr

/-- JavaScript truthiness of a possibly-absent numeric parameter: an
absent value (parseFloat gave NaN) and the number 0 are both falsy. -/
def jsTruthy : Option ℚ → Bool
  | some x => x ≠ 0
  | none => false

/-- The origin the controller resolves for distance computation, plus
the hasUserLocation flag it tracks and whether the coordinates came
from the query parameters (drives distanceSource). -/
structure QueryOrigin where
  lat : ℚ
  lon : ℚ
  hasUserLocation : Bool
  fromQueryParams : Bool
deriving DecidableEq, Repr

/-- Origin resolution of the served controller: truthy query
coordinates win; otherwise the caller's profile coordinates when the
profile has any (setting hasUserLocation even if they are zero);
otherwise hasUserLocation stays false and no location is substituted. -/
def resolveOrigin (q : ListQuery) (profileCoords : Option Coordinates) :
    QueryOrigin :=
  if jsTruthy q.latitude && jsTruthy q.longitude then
    ⟨q.latitude.getD 0, q.longitude.getD 0, true, true⟩
  else
    match profileCoords with
    | some c => ⟨c.latitude, c.longitude, true, false⟩
    | none => ⟨q.latitude.getD 0, q.longitude.getD 0, false, false⟩

/-- The Mongo query document the controller assembles, as a predicate
over stored requests.  geoW models the $geoWithin/$centerSphere
operator evaluated by the database (an approximate spherical cap):
it receives the origin, the angular radius radiusKm / 6371 and the
candidate's coordinates.  The cap clause is added only when radius is
not the fetch-all escape value 5 and the resolved origin is truthy;
with no usable origin a zipCode regex filter applies instead. -/
def matchesQuery (geoW : ℚ → ℚ → ℚ → Coordinates → Bool) (callerId : Nat)
    (origin : QueryOrigin) (q : ListQuery) (now : Nat) (r : HelpRequest) :
    Bool :=
  decide (r.recipientId ≠ callerId)
  && (match q.status with | none => true | some s => decide (r.status = s))
  && (match q.category with | none => true | some c => decide (r.category = c))
  && (match q.priority with | none => true | some p => decide (r.priority = p))
  && (if q.radius ≠ 5 then
        if origin.hasUserLocation && origin.lat ≠ 0 && origin.lon ≠ 0 then
          geoW origin.lat origin.lon (q.radius / 6371) r.pickupLocation.coordinates
        else
          match q.zipCode with
          | some z => strContains r.pickupLocation.zipCode z
          | none => true
      else true)
  && (match q.search with
      | none => true
      | some s => strContains r.title s || strContains r.description s)
  && decide (now < r.availabilityWindow.endDate)

/-- Store comparator for the sort clause priority: -1, createdAt: -1
(descending priority, newest first). -/
def storeLe (a b : HelpRequest) : Bool :=
  if a.priority.rank = b.priority.rank then decide (b.createdAt ≤ a.createdAt)
  else decide (b.priority.rank < a.priority.rank)

/-- A listing entry as returned to the client: the document plus the
distance fields the controller attaches. -/
structure ListedRequest where
  request : HelpRequest
  distance : Option ℚ
  distanceSource : String
deriving DecidableEq, Repr

/-- Distance attachment: only when the controller has a truthy user
location does it call calculateDistance (modelled by dist) and record
the source; otherwise distance stays null with source not_available. -/
def attachDistance (dist : ℚ → ℚ → ℚ → ℚ → ℚ) (origin : QueryOrigin)
    (r : HelpRequest) : ListedRequest :=
  if origin.hasUserLocation && origin.lat ≠ 0 && origin.lon ≠ 0 then
    { request := r,
      distance := some (dist origin.lat origin.lon
        r.pickupLocation.coordinates.latitude
        r.pickupLocation.coordinates.longitude),
      distanceSource :=
        if origin.fromQueryParams then "query_parameters" else "user_profile" }
  else { request := r, distance := none, distanceSource := "not_available" }

/-- Pagination object of getPaginationInfo (helpers.js). -/
structure PageInfo where
  currentPage : Nat
  totalPages : Nat
  totalItems : Nat
  itemsPerPage : Nat
  hasNext : Bool
  hasPrev : Bool
deriving DecidableEq, Repr

/-- Math.ceil of a natural division (limit is positive by Joi). -/
def ceilDiv (a b : Nat) : Nat := (a + b - 1) / b

/-- getPaginationInfo from helpers.js. -/
def getPaginationInfo (page limit total : Nat) : PageInfo :=
  let totalPages := ceilDiv total limit
  ⟨page, totalPages, total, limit,
   decide (page < totalPages), decide (1 < page)⟩

/-- The condition under which the controller runs the strict exact
distance re-filter and the post-filter pagination correction: a
resolved truthy origin, a truthy radius, and radius not equal to the
fetch-all escape value 5. -/
def strictRadiusActive (origin : QueryOrigin) (radius : ℚ) : Bool :=
  origin.hasUserLocation && origin.lat ≠ 0 && origin.lon ≠ 0
    && radius ≠ 0 && radius ≠ 5

/-- The page of store candidates the Mongo query returns: filter by
the assembled query document, sort by (priority desc, createdAt desc),
then skip (page - 1) * limit and take limit — the database applies
skip and limit BEFORE the controller ever sees the documents. -/
def storeCandidates (geoW : ℚ → ℚ → ℚ → Coordinates → Bool)
    (store : List HelpRequest) (callerId : Nat) (origin : QueryOrigin)
    (q : ListQuery) (now : Nat) : List HelpRequest :=
  (((sortLe storeLe (store.filter (matchesQuery geoW callerId origin q now))).drop
      ((q.page - 1) * q.limit)).take q.limit)

/-- Listing response: the entries plus the pagination object. -/
structure ListResult where
  requests : List ListedRequest
  pagination : PageInfo
deriving DecidableEq, Repr

/-- Route GET /requests of the served controller: the two-stage
pipeline — approximate store query (with DB-level skip and limit),
distance attachment, strict exact-distance re-filter when a radius
query is active, distance ranking, then either the corrected
post-filter pagination (radius path, with the requested page clamped
against the filtered total) or the raw countDocuments pagination. -/
def getHelpRequests (dist : ℚ → ℚ → ℚ → ℚ → ℚ)
    (geoW : ℚ → ℚ → ℚ → Coordinates → Bool) (store : List HelpRequest)
    (callerId : Nat) (profileCoords : Option Coordinates) (q : ListQuery)
    (now : Nat) : ListResult :=
  let origin := resolveOrigin q profileCoords
  let withExtras :=
    (storeCandidates geoW store callerId origin q now).map
      (attachDistance dist origin)
  let filtered :=
    if strictRadiusActive origin q.radius then
      withExtras.filter (fun o => decide (o.distance.getD 0 ≤ q.radius))
    else withExtras
  let ranked :=
    if origin.hasUserLocation then
      sortLe (fun a b => decide (a.distance.getD 0 ≤ b.distance.getD 0)) filtered
    else filtered
  if strictRadiusActive origin q.radius then
    let total := filtered.length
    let pages := ceilDiv total q.limit
    let actualPage := min q.page (if pages = 0 then 1 else pages)
    { requests := (ranked.drop ((actualPage - 1) * q.limit)).take q.limit,
      pagination := getPaginationInfo actualPage q.limit total }
  else
    { requests := ranked,
      pagination := getPaginationInfo q.page q.limit
        (store.filter (matchesQuery geoW callerId origin q now)).length }

/-- Decomposition of the strict-radius condition into its conjuncts. -/
theorem strictRadiusActive_parts {origin : QueryOrigin} {radius : ℚ}
    (h : strictRadiusActive origin radius = true) :
    origin.hasUserLocation = true ∧ origin.lat ≠ 0 ∧ origin.lon ≠ 0 ∧
      radius ≠ 0 ∧ radius ≠ 5 := by
  simp only [strictRadiusActive, Bool.and_eq_true, decide_eq_true_eq] at h
  exact ⟨h.1.1.1.1, h.1.1.1.2, h.1.1.2, h.1.2, h.2⟩

/-- Distance attachment produces a concrete distance whenever the
origin is truthy. -/
theorem attachDistance_some (dist : ℚ → ℚ → ℚ → ℚ → ℚ)
    (origin : QueryOrigin) (r : HelpRequest)
    (h1 : origin.hasUserLocation = true) (h2 : origin.lat ≠ 0)
    (h3 : origin.lon ≠ 0) :
    (attachDistance dist origin r).distance =
      some (dist origin.lat origin.lon
        r.pickupLocation.coordinates.latitude
        r.pickupLocation.coordinates.longitude) := by
  simp [attachDistance, h1, h2, h3]

/-- C1 (amended): for every listing call whose resolved origin is
truthy and whose requested radius is neither 0 nor the fetch-all
escape value 5, every returned entry carries an exact distance (as
computed by the calculateDistance function the controller uses) that
is at most the requested radius.  The original claim is amended
because radius = 5 bypasses all spatial filtering (the controller's
fetch-all escape hatch), so the spec scenario's radius=5 absence is
false; the radius=10 half of the scenario holds and instantiates this
theorem (see the witness). -/
theorem strict_radius_containment (dist : ℚ → ℚ → ℚ → ℚ → ℚ)
    (geoW : ℚ → ℚ → ℚ → Coordinates → Bool) (store : List HelpRequest)
    (callerId : Nat) (profileCoords : Option Coordinates) (q : ListQuery)
    (now : Nat) (o : ListedRequest)
    (hstrict : strictRadiusActive (resolveOrigin q profileCoords) q.radius = true)
    (ho : o ∈ (getHelpRequests dist geoW store callerId profileCoords q now).requests) :
    ∃ d, o.distance = some d ∧ d ≤ q.radius := by
  obtain ⟨hloc, hlat, hlon, hr0, hr5⟩ := strictRadiusActive_parts hstrict
  simp only [getHelpRequests, hstrict, hloc, if_true] at ho
  have h1 := List.mem_of_mem_take ho
  have h2 := List.mem_of_mem_drop h1
  rw [mem_sortLe] at h2
  have h3 := List.mem_filter.mp h2
  obtain ⟨r, _, hattach⟩ := List.mem_map.mp h3.1
  have hsome := attachDistance_some dist (resolveOrigin q profileCoords) r hloc hlat hlon
  rw [hattach] at hsome
  refine ⟨_, hsome, ?_⟩
  have hle := of_decide_eq_true h3.2
  rwa [hsome, Option.getD_some] at hle

/-- Concrete value of calculateDistance (helpers.js) on the spec
scenario pair: the Haversine distance from (40, -74) to (40.05, -74)
is 6371 km times 0.05 degrees in radians, about 5.5603 km, which
toFixed(2) rounds to 5.56.  The transcendental formula is modelled by
its value at the one pair the scenario evaluates it on (0 elsewhere,
unused). -/
def scenarioDist (lat1 lon1 lat2 lon2 : ℚ) : ℚ :=
  if lat1 = 40 ∧ lon1 = -74 ∧ lat2 = mkRat 4005 100 ∧ lon2 = -74 then
    mkRat 556 100
  else 0

/-- Concrete value of the Mongo $centerSphere evaluation for the
scenario store: the only stored point lies 5.56 km from the origin,
inside the 10 km cap of every query that adds the clause (with
radius 5 the controller never adds the clause at all). -/
def scenarioGeoWithin (_lat _lon _radRadians : ℚ) (_c : Coordinates) : Bool :=
  true

/-- The scenario listing query: donor at (40, -74), given radius,
first page, default limit 20, no other filters. -/
def scenarioQuery (radius : ℚ) : ListQuery :=
  { page := 1, limit := 20, status := none, category := none,
    priority := none, zipCode := none, radius := radius,
    latitude := some 40, longitude := some (-74), search := none }

/-- C1 (counterexample): listing with radius = 5 RETURNS the request
5.56 km away — the radius-5 escape hatch skips both the spatial
pre-filter and the strict re-filter, so an entry with distance 5.56
greater than the requested radius 5 is served, contradicting both the
containment statement and the scenario's radius=5 absence. -/
theorem radius5_escape_returns_far_item :
    ((getHelpRequests scenarioDist scenarioGeoWithin [scenarioRequest] 2 none
        (scenarioQuery 5) 50).requests.map (fun o => o.distance)
      = [some (mkRat 556 100)]) ∧ ¬ ((mkRat 556 100 : ℚ) ≤ 5) := by
  constructor
  · decide
  · decide

/-- Witness for strict_radius_containment: the scenario with
radius = 10 returns the request at exact distance 5.56 ≤ 10. -/
theorem strict_radius_containment_witness :
    ∃ d, (attachDistance scenarioDist
        (resolveOrigin (scenarioQuery 10) none) scenarioRequest).distance =
          some d ∧ d ≤ (scenarioQuery 10).radius :=
  strict_radius_containment scenarioDist scenarioGeoWithin [scenarioRequest]
    2 none (scenarioQuery 10) 50
    (attachDistance scenarioDist (resolveOrigin (scenarioQuery 10) none)
      scenarioRequest)
    (by decide) (by decide)

/-- C3 (code evaluated at the failing input): with one stored request
inside the 10 km radius, limit 20 and requested page 2, the served
pipeline returns an EMPTY page with totalItems = 0 — the database
applies skip = 20 before the strict re-filter, so the clamp
Math.min(page, ceil(filteredTotal/limit)) operates on an
already-emptied slice.  The claim (clamp to the last valid page and
report the post-filter total, here page 1 with the request and
totalItems = 1) fails on this input. -/
theorem page_beyond_end_returns_empty_page :
    ((getHelpRequests scenarioDist scenarioGeoWithin [scenarioRequest] 2 none
        { scenarioQuery 10 with page := 2 } 50).requests = []) ∧
    ((getHelpRequests scenarioDist scenarioGeoWithin [scenarioRequest] 2 none
        { scenarioQuery 10 with page := 2 } 50).pagination.totalItems = 0) ∧
    ((getHelpRequests scenarioDist scenarioGeoWithin [scenarioRequest] 2 none
        (scenarioQuery 10) 50).requests.length = 1) := by
  refine ⟨by decide, by decide, by decide⟩

/-- Origin resolution of the legacy listing variant (the second
HelpController copy in the repository): truthy query coordinates win,
else profile coordinates, and when the result is still not truthy a
fixed Mumbai location (19.0760, 72.8777) is silently substituted so
that every request gets a distance. -/
def resolveOriginLegacy (qlat qlon : Option ℚ)
    (profileCoords : Option Coordinates) : ℚ × ℚ :=
  let first : Option ℚ × Option ℚ :=
    if jsTruthy qlat && jsTruthy qlon then (qlat, qlon)
    else
      match profileCoords with
      | some c => (some c.latitude, some c.longitude)
      | none => (qlat, qlon)
  if jsTruthy first.1 && jsTruthy first.2 then (first.1.getD 0, first.2.getD 0)
  else (mkRat 190760 10000, mkRat 728777 10000)

/-- The legacy variant then always adds the $centerSphere clause when
the (possibly substituted) coordinates are truthy, so the substituted
origin actively radius-filters and distance-ranks the results. -/
def legacyGeoFilterActive (qlat qlon : Option ℚ)
    (profileCoords : Option Coordinates) : Bool :=
  (resolveOriginLegacy qlat qlon profileCoords).1 ≠ 0 &&
    (resolveOriginLegacy qlat qlon profileCoords).2 ≠ 0

/-- C8 (code evaluated at the failing input): a listing call with no
query coordinates and no profile coordinates resolves, in the legacy
variant, to the fixed Mumbai origin (19.0760, 72.8777) and keeps the
spatial filter active around it — contradicting the claim that no
fixed default location is silently substituted when no origin can be
resolved.  (The served variant resolveOrigin instead reports
hasUserLocation = false and substitutes nothing, which is the claimed
and spec-mandated behaviour.) -/
theorem legacy_listing_substitutes_mumbai :
    resolveOriginLegacy none none none =
      (mkRat 190760 10000, mkRat 728777 10000) ∧
    legacyGeoFilterActive none none none = true ∧
    (resolveOrigin (scenarioQuery 10) none).hasUserLocation = true := by
  refine ⟨by decide, by decide, by decide⟩

/-- The scenario request with an availability window that ended at
time 10 — expired relative to the evaluation time 50, status still
open. -/
def expiredRequest : HelpRequest :=
  { scenarioRequest with availabilityWindow := ⟨0, 10⟩ }

/-- The scenario request after donor 2 approved it at time 20. -/
def approvedScenario : HelpRequest :=
  { scenarioRequest with status := .approved, donorId := some 2,
                         approvedAt := some 20 }

/-- The scenario request after completion at time 30. -/
def completedScenario : HelpRequest :=
  { scenarioRequest with status := .completed, donorId := some 2,
                         approvedAt := some 20, completedAt := some 30 }

/-- C4 (counterexample): on a stored request that is still open but
whose availability window ended at 10, evaluated at time 50, approve
by a non-owner, edit by the owner and markInterested by a non-owner
ALL succeed — none of these code paths ever reads
availabilityWindow.endDate, contradicting the claim that they behave
as if the request were closed. -/
theorem expired_open_request_transitions_succeed :
    (expiredRequest.status = .opened) ∧
    (expiredRequest.availabilityWindow.endDate < 50) ∧
    (isSuccess (approveHelpRequest expiredRequest 2 50) = true) ∧
    (isSuccess (updateHelpRequest [] expiredRequest 1 emptyPatch) = true) ∧
    (isSuccess (markInterestInRequest expiredRequest 2 50) = true) := by
  refine ⟨by decide, by decide, by decide, by decide, by decide⟩

/-- C4 (amended): approve, edit and markInterested consult only status
and ownership, never availabilityWindow.endDate — on ANY open request,
even one whose end date lies before the call time, approve by a
non-owner succeeds, edit by the owner succeeds (for a patch that keeps
the stored valid window and no item change), and markInterested by a
non-owner succeeds.  Expiry is enforced only by the listing query's
endDate filter, not by the transitions. -/
theorem transitions_ignore_expiry (catalog : List HelpItem)
    (r : HelpRequest) (a now : Nat) (p : UpdatePatch)
    (hopen : r.status = .opened) (hne : a ≠ r.recipientId)
    (hwin : r.availabilityWindow.startDate < r.availabilityWindow.endDate)
    (hitems : p.items = none) (hpw : p.availabilityWindow = none)
    (_hexp : r.availabilityWindow.endDate < now) :
    isSuccess (approveHelpRequest r a now) = true ∧
    isSuccess (updateHelpRequest catalog r r.recipientId p) = true ∧
    isSuccess (markInterestInRequest r a now) = true := by
  refine ⟨?_, ?_, ?_⟩
  · simp [approveHelpRequest, Ne.symm hne, hopen, isSuccess]
  · simp only [updateHelpRequest, hitems]
    rw [if_neg (by simp)]
    simp only [saveChecked, applyPatch, hpw, Option.getD_none]
    rw [if_neg (by omega)]
    rfl
  · simp only [markInterestInRequest]
    rw [if_neg (Ne.symm hne)]
    split <;> rfl

/-- Witness for transitions_ignore_expiry at the concrete expired
request. -/
theorem transitions_ignore_expiry_witness :
    isSuccess (approveHelpRequest expiredRequest 2 50) = true ∧
    isSuccess (updateHelpRequest [] expiredRequest expiredRequest.recipientId
      emptyPatch) = true ∧
    isSuccess (markInterestInRequest expiredRequest 2 50) = true :=
  transitions_ignore_expiry [] expiredRequest 2 50 emptyPatch
    (by decide) (by decide) (by decide) rfl rfl (by decide)

/-- C5 (counterexample): the owner edits their own APPROVED request
and the update succeeds, changing the title — the edit middleware
checks ownership only and never looks at status, contradicting the
claim that a non-open status yields Forbidden or Conflict and leaves
the request unchanged. -/
theorem owner_edit_after_approval_succeeds :
    (approvedScenario.status = .approved) ∧
    (updateHelpRequest [] approvedScenario 1
        { emptyPatch with title := some "Updated grocery request title" } =
      .ok { approvedScenario with title := "Updated grocery request title" }) := by
  refine ⟨by decide, by decide⟩

/-- C5 (amended): edit is gated by ownership alone.  Any actor other
than the recipient receives Forbidden whatever the status; the
recipient's edit proceeds in EVERY status — open, approved or
completed — subject only to item validation and the window pre-save
check (here stated for a patch without items and with a valid patched
window). -/
theorem update_requires_only_ownership (catalog : List HelpItem)
    (r : HelpRequest) (a : Nat) (p : UpdatePatch) :
    (a ≠ r.recipientId → updateHelpRequest catalog r a p = .error .forbidden) ∧
    (a = r.recipientId → p.items = none →
      (applyPatch r p none).availabilityWindow.startDate <
        (applyPatch r p none).availabilityWindow.endDate →
      updateHelpRequest catalog r a p = .ok (applyPatch r p none)) := by
  constructor
  · intro h
    simp [updateHelpRequest, Ne.symm h]
  · intro h hitems hwin
    simp only [updateHelpRequest, hitems]
    rw [if_neg (by simp [h])]
    simp only [saveChecked]
    rw [if_neg (by omega)]

/-- Witness for update_requires_only_ownership: actor 2 is refused on
the open scenario request, and the owner successfully edits the
COMPLETED one. -/
theorem update_requires_only_ownership_witness :
    (updateHelpRequest [] scenarioRequest 2 emptyPatch = .error .forbidden) ∧
    (updateHelpRequest [] completedScenario 1 emptyPatch =
      .ok (applyPatch completedScenario emptyPatch none)) :=
  ⟨(update_requires_only_ownership [] scenarioRequest 2 emptyPatch).1 (by decide),
   (update_requires_only_ownership [] completedScenario 1 emptyPatch).2
     rfl rfl (by decide)⟩

/-- C6 (counterexample): on the completed scenario request the
RECIPIENT (user 1) submits a rating, and the code writes
rating.recipientRating, leaving rating.donorRating unchanged (none) —
contradicting the claim that a call by the recipient writes the other
party's slot rating.donorRating. -/
theorem recipient_rating_writes_own_slot :
    (rateHelpRequest completedScenario 1 5 "great help" 40 =
      .ok { completedScenario with rating :=
        { recipientRating := some ⟨5, "great help", 40⟩, donorRating := none } }) ∧
    ((rateHelpRequest completedScenario 1 5 "great help" 40).map
        (fun r => r.rating.donorRating) = .ok none) := by
  refine ⟨by decide, by decide⟩

/-- C6 (amended): rate succeeds only on a completed request (any other
status is a validation failure, checked before the actor), only for
the recipient or the donor (403 otherwise), and writes the CALLER's
OWN slot: the recipient's call writes rating.recipientRating and the
donor's call writes rating.donorRating. -/
theorem rate_guards_and_slots (r : HelpRequest) (a stars : Nat)
    (c : String) (now : Nat) :
    (r.status ≠ .completed →
      rateHelpRequest r a stars c now = .error .validationFailed) ∧
    (r.status = .completed → a ≠ r.recipientId → r.donorId ≠ some a →
      rateHelpRequest r a stars c now = .error .forbidden) ∧
    (r.status = .completed → a = r.recipientId →
      rateHelpRequest r a stars c now =
        .ok { r with rating :=
          { r.rating with recipientRating := some ⟨stars, c, now⟩ } }) ∧
    (r.status = .completed → a ≠ r.recipientId → r.donorId = some a →
      rateHelpRequest r a stars c now =
        .ok { r with rating :=
          { r.rating with donorRating := some ⟨stars, c, now⟩ } }) := by
  refine ⟨fun h1 => ?_, fun h1 h2 h3 => ?_, fun h1 h2 => ?_, fun h1 h2 h3 => ?_⟩
  · simp [rateHelpRequest, h1]
  · simp [rateHelpRequest, h1, Ne.symm h2, h3]
  · simp [rateHelpRequest, h1, h2.symm]
  · simp [rateHelpRequest, h1, Ne.symm h2, h3]

/-- Witness for rate_guards_and_slots: the donor (user 2) rates the
completed scenario request and the donorRating slot is written. -/
theorem rate_guards_and_slots_witness :
    rateHelpRequest completedScenario 2 4 "went smoothly" 41 =
      .ok { completedScenario with rating :=
        { completedScenario.rating with
            donorRating := some ⟨4, "went smoothly", 41⟩ } } :=
  (rate_guards_and_slots completedScenario 2 4 "went smoothly" 41).2.2.2
    rfl (by decide) rfl

/-- C7 (counterexample): the owner deletes their COMPLETED request and
the deletion succeeds — only the approved status is protected, so a
completed request is not retained, contradicting the claim that its
deletion also fails. -/
theorem owner_deletes_completed_request :
    (completedScenario.status = .completed) ∧
    (deleteHelpRequest completedScenario 1 = .ok ()) := by
  refine ⟨by decide, by decide⟩

/-- C7 (amended): delete is gated by ownership (Forbidden otherwise)
and the approved guard: the owner's deletion fails with Conflict
exactly when the status is approved and succeeds for every other
status — open AND completed requests are hard-deleted. -/
theorem delete_requires_owner_and_not_approved (r : HelpRequest) (a : Nat) :
    (a ≠ r.recipientId → deleteHelpRequest r a = .error .forbidden) ∧
    (a = r.recipientId → r.status = .approved →
      deleteHelpRequest r a = .error .conflict) ∧
    (a = r.recipientId → r.status ≠ .approved →
      deleteHelpRequest r a = .ok ()) := by
  refine ⟨fun h1 => ?_, fun h1 h2 => ?_, fun h1 h2 => ?_⟩
  · simp [deleteHelpRequest, Ne.symm h1]
  · simp [deleteHelpRequest, h1.symm, h2]
  · simp [deleteHelpRequest, h1.symm, h2]

/-- Witness for delete_requires_owner_and_not_approved: actor 2 is
refused, the owner deletes the open scenario request, and the owner's
deletion of the approved one is blocked. -/
theorem delete_requires_owner_and_not_approved_witness :
    (deleteHelpRequest scenarioRequest 2 = .error .forbidden) ∧
    (deleteHelpRequest scenarioRequest 1 = .ok ()) ∧
    (deleteHelpRequest approvedScenario 1 = .error .conflict) :=
  ⟨(delete_requires_owner_and_not_approved scenarioRequest 2).1 (by decide),
   (delete_requires_owner_and_not_approved scenarioRequest 1).2.2 rfl (by decide),
   (delete_requires_owner_and_not_approved approvedScenario 1).2.1 rfl rfl⟩

/-- Bumping a category increments exactly that key's count. -/
theorem countOf_bumpCategory (acc : List (String × Nat)) (c k : String) :
    countOf (bumpCategory acc c) k =
      countOf acc k + (if k = c then 1 else 0) := by
  induction acc with
  | nil =>
      by_cases h : k = c
      · simp [bumpCategory, countOf, h]
      · have h2 : ¬ c = k := fun hh => h hh.symm
        simp [bumpCategory, countOf, h, h2]
  | cons p rest ih =>
      obtain ⟨k0, n0⟩ := p
      by_cases h0 : k0 = c
      · subst h0
        by_cases hk : k0 = k
        · subst hk
          simp [bumpCategory, countOf]
        · have h2 : ¬ k = k0 := fun hh => hk hh.symm
          simp [bumpCategory, countOf, hk, h2]
      · by_cases hk : k0 = k
        · subst hk
          have : ¬ k0 = c := h0
          simp [bumpCategory, countOf, h0, this]
        · simp [bumpCategory, countOf, h0, hk, ih]

/-- The counts object reads back the number of occurrences of each
category in the tallied list. -/
theorem countOf_categoryCounts_aux (cats : List String)
    (acc : List (String × Nat)) (k : String) :
    countOf (cats.foldl bumpCategory acc) k =
      countOf acc k + cats.count k := by
  induction cats generalizing acc with
  | nil => simp [countOf]
  | cons c rest ih =>
      simp only [List.foldl_cons, ih, countOf_bumpCategory, List.count_cons]
      have : (k == c) = decide (k = c) := rfl
      by_cases h : k = c
      · simp [h]
        omega
      · have h2 : ¬ c = k := fun hh => h hh.symm
        simp [h, h2]

/-- countOf over categoryCounts is occurrence counting. -/
theorem countOf_categoryCounts (cats : List String) (k : String) :
    countOf (categoryCounts cats) k = cats.count k := by
  simpa [categoryCounts, countOf] using countOf_categoryCounts_aux cats [] k

/-- The reduce result dominates the seed and every scanned key. -/
theorem pickMax_ge (cnt : String → Nat) :
    ∀ (l : List String) (a x : String), x = a ∨ x ∈ l →
      cnt x ≤ cnt (pickMax cnt a l) := by
  intro l
  induction l with
  | nil =>
      intro a x hx
      rcases hx with h | h
      · subst h
        exact Nat.le_refl _
      · cases h
  | cons b bs ih =>
      intro a x hx
      have hstep : cnt a ≤ cnt (if cnt b < cnt a then a else b) ∧
          cnt b ≤ cnt (if cnt b < cnt a then a else b) := by
        by_cases hc : cnt b < cnt a
        · simp [hc]
          omega
        · simp [hc]
          omega
      have htop : cnt (if cnt b < cnt a then a else b) ≤
          cnt (pickMax cnt (if cnt b < cnt a then a else b) bs) :=
        ih (if cnt b < cnt a then a else b) _ (Or.inl rfl)
      rcases hx with h | h
      · subst h
        calc cnt x ≤ cnt (if cnt b < cnt x then x else b) := hstep.1
          _ ≤ _ := by simpa [pickMax] using htop
      · rcases List.mem_cons.mp h with h | h
        · subst h
          calc cnt x ≤ cnt (if cnt x < cnt a then a else x) := hstep.2
            _ ≤ _ := by simpa [pickMax] using htop
        · simpa [pickMax] using ih (if cnt b < cnt a then a else b) x (Or.inr h)

/-- A key with a nonzero count is one of the object's keys. -/
theorem countOf_ne_zero_mem (l : List (String × Nat)) (k : String)
    (h : countOf l k ≠ 0) : k ∈ l.map Prod.fst := by
  induction l with
  | nil => exact absurd rfl h
  | cons p rest ih =>
      obtain ⟨k0, n0⟩ := p
      by_cases hk : k0 = k
      · subst hk
        simp
      · simp only [countOf, if_neg hk] at h
        simpa using Or.inr (ih h)

/-- The inferred category attains the maximal occurrence count. -/
theorem mostCommonCategory_max (cats : List String) (c : String)
    (h : mostCommonCategory cats = some c) :
    ∀ k, cats.count k ≤ cats.count c := by
  intro k
  rw [← countOf_categoryCounts, ← countOf_categoryCounts]
  unfold mostCommonCategory at h
  split at h
  · exact absurd h (by simp)
  · rename_i k0 n0 rest heq
    have hc := Option.some.inj h
    by_cases hz : countOf (categoryCounts cats) k = 0
    · rw [hz]
      exact Nat.zero_le _
    · have hmem := countOf_ne_zero_mem _ _ hz
      rw [heq] at hmem
      simp only [List.map_cons] at hmem
      rcases List.mem_cons.mp hmem with hk | hk
      · subst hk
        rw [← hc]
        exact pickMax_ge _ _ _ _ (Or.inl rfl)
      · rw [← hc]
        exact pickMax_ge _ _ _ _ (Or.inr hk)

/-- Catalog with a food item and a medical item, used by the tie
scenarios. -/
def tieCatalog : List HelpItem :=
  [⟨1, "food", true⟩, ⟨2, "medical", true⟩]

/-- The creator's profile used by the creation scenarios. -/
def scenarioProfile : UserProfile :=
  ⟨1, "12 Oak Street", "10001", ⟨mkRat 4005 100, -74⟩⟩

/-- Creation body holding one food item and one medical item (a tie). -/
def tieBody : CreateBody :=
  { title := "Need groceries this week",
    description := "Running low on food supplies for the family.",
    items := [⟨1, 1, "units", .medium⟩, ⟨2, 1, "boxes", .medium⟩],
    priority := .medium, category := "food",
    availabilityWindow := ⟨0, 1000⟩ }

/-- C9 (counterexample): creating a request whose validated items tie
at one food and one medical item derives the category "medical" — the
category encountered LAST in catalog iteration order, not first as the
claim states, because the reduce keeps the right operand on ties
(counts[a] > counts[b] is false at equality). -/
theorem create_tie_category_is_last :
    ((createHelpRequest tieCatalog (some scenarioProfile) 1 tieBody 7 5).map
        (fun r => r.category) = .ok "medical") ∧
    ("medical" ≠ "food") := by
  refine ⟨by decide, by decide⟩

/-- C9 (amended): the derived category maximises the item-category
count ([food, food, medical] resolves to food), the computation is a
pure deterministic function of the tallied list, and ties resolve to
the tied category encountered LAST in catalog iteration order (the
tie [food, medical] resolves to medical). -/
theorem category_inference_tie_last :
    (mostCommonCategory ["food", "food", "medical"] = some "food") ∧
    (mostCommonCategory ["food", "medical"] = some "medical") ∧
    (∀ (cats : List String) (c : String), mostCommonCategory cats = some c →
      ∀ k, cats.count k ≤ cats.count c) := by
  refine ⟨by decide, by decide, mostCommonCategory_max⟩

/-- Witness for category_inference_tie_last: on the tied input the
returned category medical dominates the count of food. -/
theorem category_inference_tie_last_witness :
    List.count "food" ["food", "medical"] ≤
      List.count "medical" ["food", "medical"] :=
  category_inference_tie_last.2.2 ["food", "medical"] "medical"
    (by decide) "food"

/-- The state-machine safety invariant of the data model: an open
request has no donor; an approved or completed request has a donor and
an approval timestamp; a completed request has a completion timestamp
no earlier than its approval timestamp. -/
def LifecycleInv (r : HelpRequest) : Prop :=
  (r.status = .opened → r.donorId = none) ∧
  ((r.status = .approved ∨ r.status = .completed) →
    r.donorId.isSome = true ∧ r.approvedAt.isSome = true) ∧
  (r.status = .completed →
    ∃ ca aa, r.completedAt = some ca ∧ r.approvedAt = some aa ∧ aa ≤ ca)

/-- Inversion of a successful approve: it only fires from open and
produces exactly the approved document. -/
theorem approve_ok_inversion {r r2 : HelpRequest} {a t : Nat}
    (h : approveHelpRequest r a t = .ok r2) :
    r.status = .opened ∧
    r2 = { r with status := .approved, donorId := some a,
                  approvedAt := some t } := by
  unfold approveHelpRequest at h
  split at h
  · exact absurd h (by simp)
  · split at h
    · exact absurd h (by simp)
    · rename_i hst
      exact ⟨not_not.mp hst, (Except.ok.inj h).symm⟩

/-- Inversion of a successful complete: it only fires from approved
and produces exactly the completed document. -/
theorem complete_ok_inversion {r r2 : HelpRequest} {a t : Nat}
    (h : completeHelpRequest r a t = .ok r2) :
    r.status = .approved ∧
    r2 = { r with status := .completed, completedAt := some t } := by
  simp only [completeHelpRequest] at h
  split at h
  · exact absurd h (by simp)
  · split at h
    · exact absurd h (by simp)
    · rename_i hst
      exact ⟨not_not.mp hst, (Except.ok.inj h).symm⟩

/-- A successful save returns the saved document unchanged. -/
theorem saveChecked_ok {x r2 : HelpRequest} (h : saveChecked x = .ok r2) :
    r2 = x := by
  unfold saveChecked at h
  split at h
  · exact absurd h (by simp)
  · exact (Except.ok.inj h).symm

/-- A successful update never touches status, donorId, approvedAt or
completedAt (the Joi whitelist strips them from every request body). -/
theorem update_ok_fields {catalog : List HelpItem} {r r2 : HelpRequest}
    {a : Nat} {p : UpdatePatch}
    (h : updateHelpRequest catalog r a p = .ok r2) :
    r2.status = r.status ∧ r2.donorId = r.donorId ∧
      r2.approvedAt = r.approvedAt ∧ r2.completedAt = r.completedAt := by
  unfold updateHelpRequest at h
  split at h
  · exact absurd h (by simp)
  · split at h
    · dsimp only at h
      split at h
      · exact absurd h (by simp)
      · have he := saveChecked_ok h
        subst he
        exact ⟨rfl, rfl, rfl, rfl⟩
    · have he := saveChecked_ok h
      subst he
      exact ⟨rfl, rfl, rfl, rfl⟩

/-- A successful addNote only appends to notes. -/
theorem addNote_ok_fields {r r2 : HelpRequest} {a now : Nat} {c : String}
    (h : addNoteToRequest r a c now = .ok r2) :
    r2.status = r.status ∧ r2.donorId = r.donorId ∧
      r2.approvedAt = r.approvedAt ∧ r2.completedAt = r.completedAt := by
  simp only [addNoteToRequest] at h
  split at h
  · exact absurd h (by simp)
  · have he := (Except.ok.inj h).symm
    subst he
    exact ⟨rfl, rfl, rfl, rfl⟩

/-- A successful markInterested only touches metadata.interested. -/
theorem markInterest_ok_fields {r r2 : HelpRequest} {a now : Nat}
    (h : markInterestInRequest r a now = .ok r2) :
    r2.status = r.status ∧ r2.donorId = r.donorId ∧
      r2.approvedAt = r.approvedAt ∧ r2.completedAt = r.completedAt := by
  simp only [markInterestInRequest] at h
  split at h
  · exact absurd h (by simp)
  · split at h
    · have he := (Except.ok.inj h).symm
      subst he
      exact ⟨rfl, rfl, rfl, rfl⟩
    · have he := (Except.ok.inj h).symm
      subst he
      exact ⟨rfl, rfl, rfl, rfl⟩

/-- A successful rate only touches the rating slots. -/
theorem rate_ok_fields {r r2 : HelpRequest} {a st now : Nat} {c : String}
    (h : rateHelpRequest r a st c now = .ok r2) :
    r2.status = r.status ∧ r2.donorId = r.donorId ∧
      r2.approvedAt = r.approvedAt ∧ r2.completedAt = r.completedAt := by
  simp only [rateHelpRequest] at h
  split at h
  · exact absurd h (by simp)
  · split at h
    · exact absurd h (by simp)
    · split at h
      · have he := (Except.ok.inj h).symm
        subst he
        exact ⟨rfl, rfl, rfl, rfl⟩
      · have he := (Except.ok.inj h).symm
        subst he
        exact ⟨rfl, rfl, rfl, rfl⟩

/-- A successful flag only touches metadata.flagged. -/
theorem flag_ok_fields {r r2 : HelpRequest} {a now : Nat} {s : String}
    (h : flagHelpRequest r a s now = .ok r2) :
    r2.status = r.status ∧ r2.donorId = r.donorId ∧
      r2.approvedAt = r.approvedAt ∧ r2.completedAt = r.completedAt := by
  simp only [flagHelpRequest] at h
  have he := (Except.ok.inj h).symm
  subst he
  exact ⟨rfl, rfl, rfl, rfl⟩

/-- A created request is open with no donor and no timestamps. -/
theorem create_ok_fields {catalog : List HelpItem}
    {profile : Option UserProfile} {uid : Nat} {body : CreateBody}
    {newId now : Nat} {r : HelpRequest}
    (h : createHelpRequest catalog profile uid body newId now = .ok r) :
    r.status = .opened ∧ r.donorId = none ∧ r.approvedAt = none ∧
      r.completedAt = none := by
  unfold createHelpRequest at h
  split at h
  · exact absurd h (by simp)
  · dsimp only at h
    repeat' split at h
    all_goals try exact Except.noConfusion h
    all_goals
      have he := (Except.ok.inj h).symm
      subst he
      exact ⟨rfl, rfl, rfl, rfl⟩

/-- One successful mutation of a stored request through an exposed
endpoint at time t (delete removes the document and therefore yields
no successor state). -/
inductive LifecycleStep : HelpRequest → Nat → HelpRequest → Prop
  | approveStep {r r2 : HelpRequest} {a t : Nat} :
      approveHelpRequest r a t = .ok r2 → LifecycleStep r t r2
  | completeStep {r r2 : HelpRequest} {a t : Nat} :
      completeHelpRequest r a t = .ok r2 → LifecycleStep r t r2
  | updateStep {catalog : List HelpItem} {r r2 : HelpRequest} {a t : Nat}
      {p : UpdatePatch} :
      updateHelpRequest catalog r a p = .ok r2 → LifecycleStep r t r2
  | noteStep {r r2 : HelpRequest} {a t : Nat} {s : String} :
      addNoteToRequest r a s t = .ok r2 → LifecycleStep r t r2
  | interestStep {r r2 : HelpRequest} {a t : Nat} :
      markInterestInRequest r a t = .ok r2 → LifecycleStep r t r2
  | rateStep {r r2 : HelpRequest} {a st t : Nat} {c : String} :
      rateHelpRequest r a st c t = .ok r2 → LifecycleStep r t r2
  | flagStep {r r2 : HelpRequest} {a t : Nat} {s : String} :
      flagHelpRequest r a s t = .ok r2 → LifecycleStep r t r2

/-- Request states reachable through the exposed operations, starting
from a successful creation, with call times nondecreasing along the
trace (server clocks do not run backwards). -/
inductive ReachableRequest : Nat → HelpRequest → Prop
  | created {catalog : List HelpItem} {profile : Option UserProfile}
      {uid : Nat} {body : CreateBody} {newId t : Nat} {r : HelpRequest} :
      createHelpRequest catalog profile uid body newId t = .ok r →
      ReachableRequest t r
  | stepped {t t2 : Nat} {r r2 : HelpRequest} :
      ReachableRequest t r → t ≤ t2 → LifecycleStep r t2 r2 →
      ReachableRequest t2 r2

/-- Invariant transfer along a mutation that leaves the four lifecycle
fields untouched. -/
theorem inv_transfer {r r2 : HelpRequest} {t t2 : Nat}
    (hf : r2.status = r.status ∧ r2.donorId = r.donorId ∧
      r2.approvedAt = r.approvedAt ∧ r2.completedAt = r.completedAt)
    (hle : t ≤ t2)
    (ih : LifecycleInv r ∧ ∀ ta, r.approvedAt = some ta → ta ≤ t) :
    LifecycleInv r2 ∧ ∀ ta, r2.approvedAt = some ta → ta ≤ t2 := by
  obtain ⟨hs, hd, ha, hc⟩ := hf
  obtain ⟨⟨i1, i2, i3⟩, ib⟩ := ih
  refine ⟨⟨?_, ?_, ?_⟩, ?_⟩
  · intro hst
    rw [hd]
    exact i1 (hs.symm.trans hst)
  · intro hst
    rw [hd, ha]
    exact i2 (hst.imp (fun e => hs.symm.trans e) (fun e => hs.symm.trans e))
  · intro hst
    rw [hc, ha]
    exact i3 (hs.symm.trans hst)
  · intro ta hta
    exact le_trans (ib ta (ha.symm.trans hta)) hle

/-- Every reachable request satisfies the lifecycle invariant, and its
approval timestamp never exceeds the trace clock. -/
theorem reachable_inv_aux (t : Nat) (r : HelpRequest)
    (h : ReachableRequest t r) :
    LifecycleInv r ∧ ∀ ta, r.approvedAt = some ta → ta ≤ t := by
  induction h with
  | created hc =>
      obtain ⟨h1, h2, h3, _⟩ := create_ok_fields hc
      refine ⟨⟨fun _ => h2, fun hst => ?_, fun hst => ?_⟩, ?_⟩
      · simp [h1] at hst
      · simp [h1] at hst
      · intro ta hta
        rw [h3] at hta
        cases hta
  | stepped hre hle hstep ih =>
      cases hstep with
      | approveStep heq =>
          obtain ⟨hopen, hr2⟩ := approve_ok_inversion heq
          subst hr2
          refine ⟨⟨?_, ?_, ?_⟩, ?_⟩
          · intro hst
            exact absurd hst (by simp)
          · intro _
            exact ⟨rfl, rfl⟩
          · intro hst
            exact absurd hst (by simp)
          · intro ta hta
            exact Nat.le_of_eq (Option.some.inj hta).symm
      | completeStep heq =>
          obtain ⟨happr, hr2⟩ := complete_ok_inversion heq
          subst hr2
          obtain ⟨⟨i1, i2, i3⟩, ib⟩ := ih
          obtain ⟨hd, ha⟩ := i2 (Or.inl happr)
          obtain ⟨aa, haa⟩ := Option.isSome_iff_exists.mp ha
          refine ⟨⟨?_, ?_, ?_⟩, ?_⟩
          · intro hst
            exact absurd hst (by simp)
          · intro _
            exact ⟨hd, ha⟩
          · intro _
            exact ⟨_, aa, rfl, haa, le_trans (ib aa haa) hle⟩
          · intro ta hta
            exact le_trans (ib ta hta) hle
      | updateStep heq => exact inv_transfer (update_ok_fields heq) hle ih
      | noteStep heq => exact inv_transfer (addNote_ok_fields heq) hle ih
      | interestStep heq => exact inv_transfer (markInterest_ok_fields heq) hle ih
      | rateStep heq => exact inv_transfer (rate_ok_fields heq) hle ih
      | flagStep heq => exact inv_transfer (flag_ok_fields heq) hle ih

/-- C10: every request state reachable through the exposed operations
(create, then any sequence of edit, approve, complete, addNote,
markInterested, rate, flag at nondecreasing times; a successful delete
removes the document) satisfies the state-machine safety invariant:
open implies no donor, approved or completed implies donor and
approvedAt present, and completed implies completedAt is present and
at least approvedAt. -/
theorem state_machine_safety (t : Nat) (r : HelpRequest)
    (h : ReachableRequest t r) : LifecycleInv r :=
  (reachable_inv_aux t r h).1

/-- Catalog with the single food item of the creation scenario. -/
def scenarioCatalog : List HelpItem := [⟨1, "food", true⟩]

/-- Creation body that reproduces the scenario request. -/
def scenarioBody : CreateBody :=
  { title := "Need groceries this week",
    description := "Running low on food supplies for the family.",
    items := [⟨1, 3, "units", .medium⟩],
    priority := .medium, category := "food",
    availabilityWindow := ⟨0, 1000⟩ }

/-- The scenario request approved by donor 2 at time 50. -/
def approvedAt50 : HelpRequest :=
  { scenarioRequest with status := .approved, donorId := some 2,
                         approvedAt := some 50 }

/-- The scenario request completed at time 60. -/
def completedAt60 : HelpRequest :=
  { approvedAt50 with status := .completed, completedAt := some 60 }

/-- Witness for state_machine_safety: the request created at time 10,
approved by donor 2 at time 50 and completed at time 60 is reachable,
so the invariant holds of its final state. -/
theorem state_machine_safety_witness : LifecycleInv completedAt60 :=
  state_machine_safety 60 completedAt60
    (ReachableRequest.stepped
      (ReachableRequest.stepped
        (ReachableRequest.created
          (show createHelpRequest scenarioCatalog (some scenarioProfile)
              1 scenarioBody 1 10 = Except.ok scenarioRequest by decide))
        (show (10 : Nat) ≤ 50 by decide)
        (LifecycleStep.approveStep
          (show approveHelpRequest scenarioRequest 2 50 =
              Except.ok approvedAt50 by decide)))
      (show (50 : Nat) ≤ 60 by decide)
      (LifecycleStep.completeStep
        (show completeHelpRequest approvedAt50 2 60 =
            Except.ok completedAt60 by decide)))
